import Mathlib

/-!
Shallow embedding of the sic image-conversion core: the loader
(sic_io/src/load.rs), the operation pipeline
(src/operations/apply_operations.rs) and the conversion writer
(sic_io/src/conversion.rs). The external codec layer (the image crate)
is modelled at the level the core's logic depends on: buffer dimensions,
color models and structural pixel rearrangement are explicit; the
floating-point resampling arithmetic of gaussian blur and of the resize
filters is abstracted (it changes samples, never dimensions or the color
model). Decoders and the stdout stream are parameters of the embedded
functions, so theorems quantify over every external behavior.
-/

namespace Sic

/-- Model of an image-crate pixel buffer: dimensions plus flattened samples. -/
structure PixelBuffer where
  width : Nat
  height : Nat
  data : List Nat
deriving DecidableEq

/-- Model of image::DynamicImage restricted to the 8-bit color models the
system names (grayscale, grayscale with alpha, RGB, RGBA). -/
inductive DynamicImage where
  | ImageLuma8 (buf : PixelBuffer)
  | ImageLumaA8 (buf : PixelBuffer)
  | ImageRgb8 (buf : PixelBuffer)
  | ImageRgba8 (buf : PixelBuffer)
deriving DecidableEq

def DynamicImage.buffer : DynamicImage → PixelBuffer
  | DynamicImage.ImageLuma8 b => b
  | DynamicImage.ImageLumaA8 b => b
  | DynamicImage.ImageRgb8 b => b
  | DynamicImage.ImageRgba8 b => b

def DynamicImage.width (img : DynamicImage) : Nat := img.buffer.width

def DynamicImage.height (img : DynamicImage) : Nat := img.buffer.height

/-- Samples per pixel of each color model. -/
def DynamicImage.channels : DynamicImage → Nat
  | DynamicImage.ImageLuma8 _ => 1
  | DynamicImage.ImageLumaA8 _ => 2
  | DynamicImage.ImageRgb8 _ => 3
  | DynamicImage.ImageRgba8 _ => 4

/-- Rebuild the image around a new buffer, keeping the color model. -/
def DynamicImage.withBuffer : DynamicImage → PixelBuffer → DynamicImage
  | DynamicImage.ImageLuma8 _, b => DynamicImage.ImageLuma8 b
  | DynamicImage.ImageLumaA8 _, b => DynamicImage.ImageLumaA8 b
  | DynamicImage.ImageRgb8 _, b => DynamicImage.ImageRgb8 b
  | DynamicImage.ImageRgba8 _, b => DynamicImage.ImageRgba8 b

/-- Integer approximation of the BT.709 luma weights the external crate's
grayscale conversion uses. -/
def lumaOf (r g b : Nat) : Nat := (2126 * r + 7152 * g + 722 * b) / 10000

/-- Single-channel luma samples derived from a buffer of any color model. -/
def grayData : DynamicImage → List Nat
  | DynamicImage.ImageLuma8 b => b.data
  | DynamicImage.ImageLumaA8 b =>
      (b.data.toChunks 2).map (fun p => p.getD 0 0)
  | DynamicImage.ImageRgb8 b =>
      (b.data.toChunks 3).map (fun p => lumaOf (p.getD 0 0) (p.getD 1 0) (p.getD 2 0))
  | DynamicImage.ImageRgba8 b =>
      (b.data.toChunks 4).map (fun p => lumaOf (p.getD 0 0) (p.getD 1 0) (p.getD 2 0))

/-- Model of image::DynamicImage::grayscale: converts every color model to a
single-channel grayscale buffer. -/
def DynamicImage.grayscale (img : DynamicImage) : DynamicImage :=
  DynamicImage.ImageLuma8 ⟨img.width, img.height, grayData img⟩

/-- Three-channel RGB samples derived from a buffer of any color model; an
alpha channel is dropped. -/
def rgbData : DynamicImage → List Nat
  | DynamicImage.ImageLuma8 b =>
      (b.data.map (fun l => [l, l, l])).flatten
  | DynamicImage.ImageLumaA8 b =>
      ((b.data.toChunks 2).map (fun p => [p.getD 0 0, p.getD 0 0, p.getD 0 0])).flatten
  | DynamicImage.ImageRgb8 b => b.data
  | DynamicImage.ImageRgba8 b =>
      ((b.data.toChunks 4).map (fun p => [p.getD 0 0, p.getD 1 0, p.getD 2 0])).flatten

/-- Model of image::DynamicImage::to_rgb: an RGB buffer with alpha dropped. -/
def DynamicImage.to_rgb (img : DynamicImage) : PixelBuffer :=
  ⟨img.width, img.height, rgbData img⟩

/-- Model of image::DynamicImage::blur: a gaussian blur keeps the dimensions
and the color model; its floating-point convolution is abstracted. -/
def DynamicImage.blur (img : DynamicImage) (_sigma : Nat) : DynamicImage := img

/-- Reverse the pixels (groups of c samples) inside each row of w pixels. -/
def flipRowData (c w : Nat) (d : List Nat) : List Nat :=
  (((d.toChunks c).toChunks w).map (fun row => row.reverse.flatten)).flatten

/-- Reverse the order of the rows of w pixels (groups of c samples). -/
def flipColData (c w : Nat) (d : List Nat) : List Nat :=
  ((((d.toChunks c).toChunks w).reverse).map (fun row => row.flatten)).flatten

/-- Model of image::DynamicImage::fliph: mirror along the vertical axis. -/
def DynamicImage.fliph (img : DynamicImage) : DynamicImage :=
  img.withBuffer ⟨img.width, img.height, flipRowData img.channels img.width img.buffer.data⟩

/-- Model of image::DynamicImage::flipv: mirror along the horizontal axis. -/
def DynamicImage.flipv (img : DynamicImage) : DynamicImage :=
  img.withBuffer ⟨img.width, img.height, flipColData img.channels img.width img.buffer.data⟩

/-- Model of image::FilterType (the pipeline always passes Gaussian). -/
inductive FilterType where
  | Nearest
  | Triangle
  | CatmullRom
  | Gaussian
  | Lanczos3
deriving DecidableEq

/-- Model of image::DynamicImage::resize_exact: the result has exactly the
requested dimensions and the original color model; resampling arithmetic is
abstracted. -/
def DynamicImage.resize_exact (img : DynamicImage) (w h : Nat) (_filter : FilterType) :
    DynamicImage :=
  img.withBuffer ⟨w, h, img.buffer.data⟩

/-! ## Loader (sic_io/src/load.rs) -/

/-- Zero-indexed frame index (load.rs, enum FrameIndex). -/
inductive FrameIndex where
  | First
  | Last
  | Nth (n : Nat)
deriving DecidableEq

/-- Import configuration (load.rs, struct ImportConfig). -/
structure ImportConfig where
  selected_frame : FrameIndex
deriving DecidableEq

/-- Errors of the import module (load.rs, enum ImportError); the payloads of
the external error types are modelled as their messages. -/
inductive ImportError where
  | Image (e : String)
  | Io (e : String)
  | NoSuchFrame (which : Nat) (reason : String)
deriving DecidableEq

/-- One still frame of an animated container; the external decoder hands
frames over as RGBA buffers (image::Frame). -/
structure Frame where
  buffer : PixelBuffer
deriving DecidableEq

/-- Model of image::Frame::into_buffer: the frame's RGBA buffer. -/
def Frame.into_buffer (f : Frame) : PixelBuffer := f.buffer

/-- Fallback frame for the in-bounds indexing of the selected frame (the
source indexes unchecked after its own bounds check, so it is never used). -/
def default_frame : Frame := ⟨⟨0, 0, []⟩⟩

/-- External GIF frame decoder (image::gif::Decoder plus into_frames plus
collect), a parameter of the embedding. -/
def GifFrameDecoder : Type := List UInt8 → Except String (List Frame)

/-- External generic decoder (image::load_from_memory), a parameter of the
embedding. -/
def MemoryLoader : Type := List UInt8 → Except String DynamicImage

/-- The message of load.rs line 93: it interpolates amount_of_frames. -/
def no_such_frame_message (amount_of_frames : Nat) : String :=
  "Chosen frame index exceeds the maximum frame index (" ++ toString amount_of_frames
    ++ ") of the image."

def no_frames_found_message : String := "No frames found."

/-- A stand-in error message for external decoders in concrete instances. -/
def unused_message : String := "unused"

/-- load.rs, starts_with_gif_magic_number: the buffer begins with the bytes
of GIF87a or of GIF89a. -/
def starts_with_gif_magic_number (buffer : List UInt8) : Bool :=
  List.isPrefixOf [71, 73, 70, 56, 55, 97] buffer
    || List.isPrefixOf [71, 73, 70, 56, 57, 97] buffer

/-- load.rs, load_gif: decode all frames, resolve the frame selector, check
the bound, and wrap the selected frame's buffer as an RGBA image. -/
def load_gif (decode_frames : GifFrameDecoder) (buffer : List UInt8) (frame : FrameIndex) :
    Except ImportError DynamicImage :=
  match decode_frames buffer with
  | Except.error e => Except.error (ImportError.Image e)
  | Except.ok vec =>
    let amount_of_frames := vec.length
    let selectedE : Except ImportError Nat :=
      match frame with
      | FrameIndex.First => Except.ok 0
      | FrameIndex.Nth n => Except.ok n
      | FrameIndex.Last =>
        if vec.isEmpty then Except.error (ImportError.NoSuchFrame 0 no_frames_found_message)
        else Except.ok (amount_of_frames - 1)
    match selectedE with
    | Except.error e => Except.error e
    | Except.ok selected =>
      if selected ≥ amount_of_frames then
        Except.error (ImportError.NoSuchFrame selected (no_such_frame_message amount_of_frames))
      else
        Except.ok (DynamicImage.ImageRgba8 (Frame.into_buffer (vec.getD selected default_frame)))

/-- load.rs, load_image: the raw bytes (already read to memory) are routed to
the GIF path when the magic number matches, else to the generic decoder. -/
def load_image (decode_frames : GifFrameDecoder) (load_from_memory : MemoryLoader)
    (buffer : List UInt8) (config : ImportConfig) : Except ImportError DynamicImage :=
  if starts_with_gif_magic_number buffer then
    load_gif decode_frames buffer config.selected_frame
  else
    match load_from_memory buffer with
    | Except.ok img => Except.ok img
    | Except.error e => Except.error (ImportError.Image e)

/-! ## Operation pipeline (src/operations/apply_operations.rs) -/

/-- Modelled from the spec: the Operation enum lives in operations/mod.rs,
which is not among the repository files; the spec fixes it as the tagged
variants Resize(width, height), Blur(sigma), FlipHorizontal, FlipVertical
(an extensible closed set), matching the four arms apply_on matches. -/
inductive Operation where
  | Blur (sigma : Nat)
  | FlipHorizontal
  | FlipVertical
  | Resize (new_x new_y : Nat)
deriving DecidableEq

/-- apply_operations.rs, ApplyOperation::apply_on for Operation: the four
recognized arms each succeed; the catch-all unimplemented arm of the source
match is unreachable over the closed variant set (the source itself carries
allow(unreachable_patterns) on it). -/
def Operation.apply_on (op : Operation) (img : DynamicImage) : Except String DynamicImage :=
  match op with
  | Operation.Blur sigma => Except.ok (img.blur sigma)
  | Operation.FlipHorizontal => Except.ok img.fliph
  | Operation.FlipVertical => Except.ok img.flipv
  | Operation.Resize new_x new_y =>
      Except.ok (img.resize_exact new_x new_y FilterType.Gaussian)

/-- The arms ApplyOperation::apply_on recognizes (all four variants; the
source's default arm would be reached by no constructor). -/
def recognized_operation : Operation → Bool
  | Operation.Blur _ => true
  | Operation.FlipHorizontal => true
  | Operation.FlipVertical => true
  | Operation.Resize _ _ => true

/-- Model of std::rc::Rc observable state: the counts of the other live
strong and weak handles decide Rc::get_mut. -/
structure Rc (α : Type) where
  strong : Nat
  weak : Nat
  value : α
deriving DecidableEq

/-- Model of Rc::get_mut: some only when this is the sole reference. -/
def Rc.get_mut {α : Type} (rc : Rc α) : Option α :=
  if rc.strong = 1 ∧ rc.weak = 0 then some rc.value else none

def unwrap_none_message : String := "called Option::unwrap() on a None value"

def unwrap_err_message : String := "called Result::unwrap() on an Err value"

/-- Outcome of a call that can panic: either the returned Result or a panic. -/
inductive PipelineOutcome where
  | result (r : Except String (Rc DynamicImage))
  | panicked (msg : String)

/-- apply_operations.rs, apply_operations_on_image: for each operation in
order, Rc::get_mut(..).unwrap() exposes the buffer (a panic when the handle
is shared), apply_on transforms it and its result is unwrapped (a panic on
an Err); finally Ok(rc_img) is returned. -/
def apply_operations_on_image (image : Rc DynamicImage) :
    List Operation → PipelineOutcome
  | [] => PipelineOutcome.result (Except.ok image)
  | op :: rest =>
    match image.get_mut with
    | none => PipelineOutcome.panicked unwrap_none_message
    | some img =>
      match Operation.apply_on op img with
      | Except.error _ => PipelineOutcome.panicked unwrap_err_message
      | Except.ok next => apply_operations_on_image ⟨image.strong, image.weak, next⟩ rest

/-- The value an operation application steps the buffer to (the Ok payload
of apply_on; apply_on never returns an Err on the closed variant set). -/
def pipelineStep (img : DynamicImage) (op : Operation) : DynamicImage :=
  match Operation.apply_on op img with
  | Except.ok v => v
  | Except.error _ => img

/-- The specification's reading of the pipeline: a left-to-right fold of the
operation list over the starting buffer. -/
def pipelineFold (img : DynamicImage) (ops : List Operation) : DynamicImage :=
  List.foldl pipelineStep img ops

/-! ## Conversion writer (sic_io/src/conversion.rs) -/

/-- conversion.rs, enum AutomaticColorTypeAdjustment. -/
inductive AutomaticColorTypeAdjustment where
  | Enabled
  | Disabled
deriving DecidableEq

/-- Model of image::pnm::SampleEncoding. -/
inductive SampleEncoding where
  | Binary
  | Ascii
deriving DecidableEq

/-- Model of image::pnm::PNMSubtype. -/
inductive PNMSubtype where
  | Bitmap (e : SampleEncoding)
  | Graymap (e : SampleEncoding)
  | Pixmap (e : SampleEncoding)
  | ArbitraryMap
deriving DecidableEq

/-- Model of image::ImageOutputFormat (the variants the writer is used
with). -/
inductive ImageOutputFormat where
  | BMP
  | GIF
  | ICO
  | JPEG (quality : Nat)
  | PNG
  | PNM (s : PNMSubtype)
deriving DecidableEq

/-- conversion.rs, ConversionWriter::pre_process_color_type: the fixed policy
table; Some(replacement) when a conversion is required, None for
pass-through. -/
def pre_process_color_type (image : DynamicImage) (output_format : ImageOutputFormat)
    (color_type_adjustment : AutomaticColorTypeAdjustment) : Option DynamicImage :=
  match color_type_adjustment with
  | AutomaticColorTypeAdjustment.Enabled =>
    match output_format with
    | ImageOutputFormat.PNM (PNMSubtype.Bitmap _) => some image.grayscale
    | ImageOutputFormat.PNM (PNMSubtype.Graymap _) => some image.grayscale
    | ImageOutputFormat.PNM (PNMSubtype.Pixmap _) =>
        some (DynamicImage.ImageRgb8 image.to_rgb)
    | _ => none
  | AutomaticColorTypeAdjustment.Disabled => none

/-- conversion.rs, ConversionWriter::write lines 43-46: the buffer handed to
the encoder is the replacement when pre-processing produced one, else the
original. -/
def export_buffer (image : DynamicImage) (output_format : ImageOutputFormat)
    (color_type_adjustment : AutomaticColorTypeAdjustment) : DynamicImage :=
  match pre_process_color_type image output_format color_type_adjustment with
  | some replacement => replacement
  | none => image

/-- External encoder (image::DynamicImage::write_to into a byte vector), a
parameter of the embedding. -/
def Encoder : Type := DynamicImage → ImageOutputFormat → Except String (List UInt8)

/-- External stdout write call (std::io::Stdout::write), a parameter of the
embedding; Ok carries the count of bytes the stream accepted. -/
def StdoutSink : Type := List UInt8 → Except String Nat

/-- conversion.rs, ConversionWriter::export_to_stdout: encode fully into an
in-memory vector, then hand that vector to the stream in one write call.
The second component records the chunks passed to the stream, in order. -/
def export_to_stdout (write_to : Encoder) (stdout_write : StdoutSink)
    (buffer : DynamicImage) (format : ImageOutputFormat) :
    Except String Unit × List (List UInt8) :=
  match write_to buffer format with
  | Except.error e => (Except.error e, [])
  | Except.ok write_buffer =>
    match stdout_write write_buffer with
    | Except.error e => (Except.error e, [write_buffer])
    | Except.ok _ => (Except.ok (), [write_buffer])

/-! ## Helper lemmas -/

/-- Each of the four recognized operation arms returns Ok, and the payload is
pipelineStep. -/
theorem apply_on_eq_step (op : Operation) (img : DynamicImage) :
    Operation.apply_on op img = Except.ok (pipelineStep img op) := by
  cases op <;> rfl

/-- A pipeline run on a sole-reference handle returns Ok of the left fold. -/
theorem sole_owner_run (ops : List Operation) : ∀ img : DynamicImage,
    apply_operations_on_image ⟨1, 0, img⟩ ops
      = PipelineOutcome.result (Except.ok ⟨1, 0, pipelineFold img ops⟩) := by
  induction ops with
  | nil => intro img; rfl
  | cons op rest ih =>
    intro img
    have h1 : apply_operations_on_image ⟨1, 0, img⟩ (op :: rest)
        = apply_operations_on_image ⟨1, 0, pipelineStep img op⟩ rest := by
      simp only [apply_operations_on_image, Rc.get_mut, apply_on_eq_step]
      norm_num
    rw [h1, ih]
    simp [pipelineFold]

theorem width_resize (img : DynamicImage) (w h : Nat) (f : FilterType) :
    (img.resize_exact w h f).width = w := by
  cases img <;> rfl

theorem height_resize (img : DynamicImage) (w h : Nat) (f : FilterType) :
    (img.resize_exact w h f).height = h := by
  cases img <;> rfl

theorem pipelineStep_resize (img : DynamicImage) (w h : Nat) :
    pipelineStep img (Operation.Resize w h) = img.resize_exact w h FilterType.Gaussian := rfl

/-! ## Claim theorems -/

/-- C2: every pipeline stage returns success or a typed failure (in this
build every recognized operation kind succeeds, so no stage fails and the
first-failure short-circuit clause holds with nothing to short-circuit);
every operation kind of the closed variant set is recognized, so the
unimplemented catch-all aborting the conversion is reached by no input; the
pipeline hands the fold result back to the caller unchanged. -/
theorem apply_operations_stage_propagation (ops : List Operation) (img : DynamicImage) :
    (∀ (op : Operation) (i : DynamicImage), ∃ v, Operation.apply_on op i = Except.ok v)
      ∧ (∀ op : Operation, recognized_operation op = true)
      ∧ apply_operations_on_image ⟨1, 0, img⟩ ops
          = PipelineOutcome.result (Except.ok ⟨1, 0, pipelineFold img ops⟩) :=
  ⟨fun op i => ⟨pipelineStep i op, apply_on_eq_step op i⟩,
    fun op => by cases op <;> rfl,
    sole_owner_run ops img⟩

/-- C8: the pipeline's result is the left-to-right fold of the operation
list over the starting buffer, each operation consuming the previous step's
output. -/
theorem apply_operations_is_left_fold (img : DynamicImage) (ops : List Operation) :
    apply_operations_on_image ⟨1, 0, img⟩ ops
      = PipelineOutcome.result (Except.ok ⟨1, 0, List.foldl pipelineStep img ops⟩) :=
  sole_owner_run ops img

/-- C10 counterexample: with a second strong reference retained but an empty
operation list, apply_operations_on_image does not panic; it returns Ok, so
the claim that any retained reference makes the function panic is false as
stated. -/
theorem shared_handle_empty_pipeline_returns_ok :
    apply_operations_on_image ⟨2, 0, DynamicImage.ImageRgb8 ⟨1, 1, [0, 0, 0]⟩⟩ []
      = PipelineOutcome.result
          (Except.ok ⟨2, 0, DynamicImage.ImageRgb8 ⟨1, 1, [0, 0, 0]⟩⟩) := rfl

/-- C10 (amended): when the handle is not the sole reference and at least
one operation is applied, the function panics on the unwrap of Rc::get_mut
instead of returning an Err; under sole ownership the unwrap branch is
unreachable and the function never returns an Err. -/
theorem rc_unique_ownership_precondition (rc : Rc DynamicImage) (ops : List Operation)
    (img : DynamicImage) (ops2 : List Operation)
    (hshared : ¬(rc.strong = 1 ∧ rc.weak = 0)) (hne : ops ≠ []) :
    apply_operations_on_image rc ops = PipelineOutcome.panicked unwrap_none_message
      ∧ ∀ e, apply_operations_on_image ⟨1, 0, img⟩ ops2
          ≠ PipelineOutcome.result (Except.error e) := by
  constructor
  · cases ops with
    | nil => exact absurd rfl hne
    | cons op rest =>
      simp only [apply_operations_on_image, Rc.get_mut, if_neg hshared]
  · intro e
    rw [sole_owner_run]
    simp

theorem rc_unique_ownership_precondition_witness :
    apply_operations_on_image ⟨2, 0, DynamicImage.ImageLuma8 ⟨0, 0, []⟩⟩
          [Operation.FlipHorizontal]
        = PipelineOutcome.panicked unwrap_none_message
      ∧ ∀ e, apply_operations_on_image ⟨1, 0, DynamicImage.ImageLuma8 ⟨0, 0, []⟩⟩ []
          ≠ PipelineOutcome.result (Except.error e) :=
  rc_unique_ownership_precondition ⟨2, 0, DynamicImage.ImageLuma8 ⟨0, 0, []⟩⟩
    [Operation.FlipHorizontal] (DynamicImage.ImageLuma8 ⟨0, 0, []⟩) []
    (by decide) (by simp)

/-- C7: Resize(w, h) yields a buffer of exactly w by h, and the pipeline
Resize(100,200), Blur(1), FlipHorizontal, Resize(200,200) on a 217 by 447
input succeeds with a final 200 by 200 canvas. -/
theorem resize_exact_dimensions (img img2 : DynamicImage) (w h : Nat)
    (hw : 0 < w) (hh : 0 < h) (h217 : img2.width = 217) (h447 : img2.height = 447) :
    (∃ v, Operation.apply_on (Operation.Resize w h) img = Except.ok v
        ∧ v.width = w ∧ v.height = h)
      ∧ ∃ rcOut : Rc DynamicImage,
          apply_operations_on_image ⟨1, 0, img2⟩
              [Operation.Resize 100 200, Operation.Blur 1, Operation.FlipHorizontal,
                Operation.Resize 200 200]
            = PipelineOutcome.result (Except.ok rcOut)
          ∧ rcOut.value.width = 200 ∧ rcOut.value.height = 200 := by
  constructor
  · refine ⟨img.resize_exact w h FilterType.Gaussian, rfl, ?_, ?_⟩
    · exact width_resize img w h FilterType.Gaussian
    · exact height_resize img w h FilterType.Gaussian
  · refine ⟨⟨1, 0, pipelineFold img2 [Operation.Resize 100 200, Operation.Blur 1,
      Operation.FlipHorizontal, Operation.Resize 200 200]⟩, sole_owner_run _ img2, ?_, ?_⟩
    · simp [pipelineFold, List.foldl_cons, List.foldl_nil, pipelineStep_resize, width_resize]
    · simp [pipelineFold, List.foldl_cons, List.foldl_nil, pipelineStep_resize, height_resize]

theorem resize_exact_dimensions_witness :
    ((∃ v, Operation.apply_on (Operation.Resize 5 9) (DynamicImage.ImageRgb8 ⟨3, 2, []⟩)
          = Except.ok v ∧ v.width = 5 ∧ v.height = 9)
      ∧ ∃ rcOut : Rc DynamicImage,
          apply_operations_on_image ⟨1, 0, DynamicImage.ImageRgb8 ⟨217, 447, []⟩⟩
              [Operation.Resize 100 200, Operation.Blur 1, Operation.FlipHorizontal,
                Operation.Resize 200 200]
            = PipelineOutcome.result (Except.ok rcOut)
          ∧ rcOut.value.width = 200 ∧ rcOut.value.height = 200) :=
  resize_exact_dimensions (DynamicImage.ImageRgb8 ⟨3, 2, []⟩)
    (DynamicImage.ImageRgb8 ⟨217, 447, []⟩) 5 9 (by decide) (by decide) rfl rfl

/-- C1: on the animated path the selector resolves First to 0, Nth(k) to k
and Last to n-1 (failing when n = 0); a resolved index at or beyond n fails
with NoSuchFrame carrying the requested index and a message interpolating
the frame count; otherwise the frame at the resolved index is returned. -/
theorem load_gif_selector_resolution (decode_frames : GifFrameDecoder)
    (buffer : List UInt8) (vec : List Frame)
    (hdec : decode_frames buffer = Except.ok vec) :
    (∀ k, k < vec.length → load_gif decode_frames buffer (FrameIndex.Nth k)
        = Except.ok (DynamicImage.ImageRgba8 (Frame.into_buffer (vec.getD k default_frame))))
      ∧ (∀ k, vec.length ≤ k → load_gif decode_frames buffer (FrameIndex.Nth k)
          = Except.error (ImportError.NoSuchFrame k (no_such_frame_message vec.length)))
      ∧ (0 < vec.length → load_gif decode_frames buffer FrameIndex.First
          = Except.ok (DynamicImage.ImageRgba8 (Frame.into_buffer (vec.getD 0 default_frame))))
      ∧ (vec.length = 0 → load_gif decode_frames buffer FrameIndex.First
          = Except.error (ImportError.NoSuchFrame 0 (no_such_frame_message 0)))
      ∧ (0 < vec.length → load_gif decode_frames buffer FrameIndex.Last
          = Except.ok (DynamicImage.ImageRgba8
              (Frame.into_buffer (vec.getD (vec.length - 1) default_frame))))
      ∧ (vec.length = 0 → load_gif decode_frames buffer FrameIndex.Last
          = Except.error (ImportError.NoSuchFrame 0 no_frames_found_message)) := by
  refine ⟨?_, ?_, ?_, ?_, ?_, ?_⟩
  · intro k hk
    simp only [load_gif, hdec]
    rw [if_neg (by omega)]
  · intro k hk
    simp only [load_gif, hdec]
    rw [if_pos (by omega)]
  · intro hlen
    simp only [load_gif, hdec]
    rw [if_neg (by omega)]
  · intro hlen
    simp only [load_gif, hdec, hlen]
    rw [if_pos (by omega)]
  · intro hlen
    cases vec with
    | nil => exact absurd hlen (by simp)
    | cons f rest =>
      simp only [load_gif, hdec, List.isEmpty_cons, Bool.false_eq_true, if_false]
      rw [if_neg (by simp)]
  · intro hlen
    cases vec with
    | nil =>
      simp only [load_gif, hdec, List.isEmpty_nil, if_true]
    | cons f rest => exact absurd hlen (by simp)

theorem load_gif_selector_resolution_witness :
    ((fun _ : List UInt8 =>
        (Except.ok [default_frame] : Except String (List Frame))) []
          = Except.ok [default_frame])
      ∧ ((∀ k, k < [default_frame].length →
            load_gif (fun _ : List UInt8 => Except.ok [default_frame]) [] (FrameIndex.Nth k)
              = Except.ok (DynamicImage.ImageRgba8
                  (Frame.into_buffer ([default_frame].getD k default_frame))))
          ∧ (∀ k, [default_frame].length ≤ k →
              load_gif (fun _ : List UInt8 => Except.ok [default_frame]) [] (FrameIndex.Nth k)
                = Except.error (ImportError.NoSuchFrame k
                    (no_such_frame_message [default_frame].length)))
          ∧ (0 < [default_frame].length →
              load_gif (fun _ : List UInt8 => Except.ok [default_frame]) [] FrameIndex.First
                = Except.ok (DynamicImage.ImageRgba8
                    (Frame.into_buffer ([default_frame].getD 0 default_frame))))
          ∧ ([default_frame].length = 0 →
              load_gif (fun _ : List UInt8 => Except.ok [default_frame]) [] FrameIndex.First
                = Except.error (ImportError.NoSuchFrame 0 (no_such_frame_message 0)))
          ∧ (0 < [default_frame].length →
              load_gif (fun _ : List UInt8 => Except.ok [default_frame]) [] FrameIndex.Last
                = Except.ok (DynamicImage.ImageRgba8
                    (Frame.into_buffer
                      ([default_frame].getD ([default_frame].length - 1) default_frame))))
          ∧ ([default_frame].length = 0 →
              load_gif (fun _ : List UInt8 => Except.ok [default_frame]) [] FrameIndex.Last
                = Except.error (ImportError.NoSuchFrame 0 no_frames_found_message))) :=
  ⟨rfl, load_gif_selector_resolution
    (fun _ : List UInt8 => Except.ok [default_frame]) [] [default_frame] rfl⟩

/-- C5: on an animated input with n frames, n at least 1, Last loads the
same result as Nth(n-1) and First the same result as Nth(0). -/
theorem last_nth_first_zero_equivalence (decode_frames : GifFrameDecoder)
    (load_from_memory : MemoryLoader) (buffer : List UInt8) (vec : List Frame)
    (hmagic : starts_with_gif_magic_number buffer = true)
    (hdec : decode_frames buffer = Except.ok vec) (hlen : 1 ≤ vec.length) :
    load_image decode_frames load_from_memory buffer ⟨FrameIndex.Last⟩
        = load_image decode_frames load_from_memory buffer
            ⟨FrameIndex.Nth (vec.length - 1)⟩
      ∧ load_image decode_frames load_from_memory buffer ⟨FrameIndex.First⟩
          = load_image decode_frames load_from_memory buffer ⟨FrameIndex.Nth 0⟩ := by
  constructor
  · cases vec with
    | nil => exact absurd hlen (by simp)
    | cons f rest =>
      simp only [load_image, hmagic, if_true, load_gif, hdec, List.isEmpty_cons,
        Bool.false_eq_true, if_false]
  · simp only [load_image, hmagic, if_true, load_gif, hdec]

theorem last_nth_first_zero_equivalence_witness :
    load_image (fun _ : List UInt8 => Except.ok [default_frame])
          (fun _ : List UInt8 => Except.error unused_message)
          [71, 73, 70, 56, 57, 97] ⟨FrameIndex.Last⟩
        = load_image (fun _ : List UInt8 => Except.ok [default_frame])
            (fun _ : List UInt8 => Except.error unused_message)
            [71, 73, 70, 56, 57, 97] ⟨FrameIndex.Nth ([default_frame].length - 1)⟩
      ∧ load_image (fun _ : List UInt8 => Except.ok [default_frame])
            (fun _ : List UInt8 => Except.error unused_message)
            [71, 73, 70, 56, 57, 97] ⟨FrameIndex.First⟩
          = load_image (fun _ : List UInt8 => Except.ok [default_frame])
              (fun _ : List UInt8 => Except.error unused_message)
              [71, 73, 70, 56, 57, 97] ⟨FrameIndex.Nth 0⟩ :=
  last_nth_first_zero_equivalence (fun _ : List UInt8 => Except.ok [default_frame])
    (fun _ : List UInt8 => Except.error unused_message)
    [71, 73, 70, 56, 57, 97] [default_frame] (by decide) rfl (by decide)

/-- C6: a buffer without the GIF magic signature loads independently of the
frame selector, and a valid non-animated input loads successfully under
every selector. -/
theorem non_gif_selector_independent (decode_frames : GifFrameDecoder)
    (load_from_memory : MemoryLoader) (buffer : List UInt8)
    (hmagic : starts_with_gif_magic_number buffer = false) :
    (∀ s1 s2 : FrameIndex,
        load_image decode_frames load_from_memory buffer ⟨s1⟩
          = load_image decode_frames load_from_memory buffer ⟨s2⟩)
      ∧ ∀ (img : DynamicImage) (s : FrameIndex),
          load_from_memory buffer = Except.ok img →
          load_image decode_frames load_from_memory buffer ⟨s⟩ = Except.ok img := by
  constructor
  · intro s1 s2
    simp [load_image, hmagic]
  · intro img s hok
    simp [load_image, hmagic, hok]

theorem non_gif_selector_independent_witness :
    (∀ s1 s2 : FrameIndex,
        load_image (fun _ : List UInt8 => Except.ok [default_frame])
            (fun _ : List UInt8 => Except.ok (DynamicImage.ImageLuma8 ⟨0, 0, []⟩)) [] ⟨s1⟩
          = load_image (fun _ : List UInt8 => Except.ok [default_frame])
              (fun _ : List UInt8 => Except.ok (DynamicImage.ImageLuma8 ⟨0, 0, []⟩)) [] ⟨s2⟩)
      ∧ ∀ (img : DynamicImage) (s : FrameIndex),
          (fun _ : List UInt8 =>
              (Except.ok (DynamicImage.ImageLuma8 ⟨0, 0, []⟩) : Except String DynamicImage)) []
            = Except.ok img →
          load_image (fun _ : List UInt8 => Except.ok [default_frame])
              (fun _ : List UInt8 => Except.ok (DynamicImage.ImageLuma8 ⟨0, 0, []⟩)) [] ⟨s⟩
            = Except.ok img :=
  non_gif_selector_independent (fun _ : List UInt8 => Except.ok [default_frame])
    (fun _ : List UInt8 => Except.ok (DynamicImage.ImageLuma8 ⟨0, 0, []⟩)) [] rfl

/-- C9: every frame the animated loader returns successfully is wrapped as
an RGBA image, whatever the container's original color model was. -/
theorem loaded_gif_frame_is_rgba (decode_frames : GifFrameDecoder) (buffer : List UInt8)
    (frame : FrameIndex) (img : DynamicImage)
    (h : load_gif decode_frames buffer frame = Except.ok img) :
    ∃ b, img = DynamicImage.ImageRgba8 b := by
  unfold load_gif at h
  rcases hdec : decode_frames buffer with e | vec
  all_goals rw [hdec] at h
  · exact absurd h (by simp)
  · dsimp only at h
    split at h
    · exact absurd h (by simp)
    · split at h
      · exact absurd h (by simp)
      · injection h with h2
        exact ⟨_, h2.symm⟩

theorem loaded_gif_frame_is_rgba_witness :
    ∃ b, DynamicImage.ImageRgba8 (⟨0, 0, []⟩ : PixelBuffer) = DynamicImage.ImageRgba8 b :=
  loaded_gif_frame_is_rgba (fun _ : List UInt8 => Except.ok [default_frame]) []
    FrameIndex.First (DynamicImage.ImageRgba8 ⟨0, 0, []⟩) rfl

/-- C3: a Stdout export encodes fully in memory first; an encode failure
returns the error with zero chunks emitted to the stream, a successful
export passes the entire encoded sequence to the stream in one single
write, and in every case the stream receives either nothing or exactly the
one full encoded sequence. -/
theorem export_to_stdout_encode_then_single_write (write_to : Encoder)
    (stdout_write : StdoutSink) (buffer : DynamicImage) (format : ImageOutputFormat) :
    (∀ e, write_to buffer format = Except.error e →
        export_to_stdout write_to stdout_write buffer format = (Except.error e, []))
      ∧ (∀ bytes n, write_to buffer format = Except.ok bytes →
          stdout_write bytes = Except.ok n →
          export_to_stdout write_to stdout_write buffer format = (Except.ok (), [bytes]))
      ∧ ∀ r chunks, export_to_stdout write_to stdout_write buffer format = (r, chunks) →
          chunks = [] ∨ ∃ bytes, write_to buffer format = Except.ok bytes
            ∧ chunks = [bytes] := by
  refine ⟨?_, ?_, ?_⟩
  · intro e he
    simp [export_to_stdout, he]
  · intro bytes n h1 h2
    simp [export_to_stdout, h1, h2]
  · intro r chunks h
    rcases hw : write_to buffer format with e | bytes
    · rw [export_to_stdout, hw] at h
      exact Or.inl (congrArg Prod.snd h).symm
    · rw [export_to_stdout, hw] at h
      dsimp only at h
      rcases hs : stdout_write bytes with e2 | n
      all_goals rw [hs] at h
      · exact Or.inr ⟨bytes, rfl, (congrArg Prod.snd h).symm⟩
      · exact Or.inr ⟨bytes, rfl, (congrArg Prod.snd h).symm⟩

/-- C4: with adjustment enabled the policy table maps a bitmap target to a
grayscale replacement, a graymap target to a grayscale replacement, a
pixmap target to an alpha-dropped RGB replacement, and every other target
family to pass-through (the writer keeps the original buffer); with
adjustment disabled the buffer always passes through unmodified; the
grayscale replacement is a single-channel image. -/
theorem pre_process_color_type_policy (img : DynamicImage) (fmt : ImageOutputFormat)
    (e : SampleEncoding) :
    (pre_process_color_type img (ImageOutputFormat.PNM (PNMSubtype.Bitmap e))
        AutomaticColorTypeAdjustment.Enabled = some img.grayscale)
      ∧ (pre_process_color_type img (ImageOutputFormat.PNM (PNMSubtype.Graymap e))
          AutomaticColorTypeAdjustment.Enabled = some img.grayscale)
      ∧ (pre_process_color_type img (ImageOutputFormat.PNM (PNMSubtype.Pixmap e))
          AutomaticColorTypeAdjustment.Enabled = some (DynamicImage.ImageRgb8 img.to_rgb))
      ∧ ((∀ e2, fmt ≠ ImageOutputFormat.PNM (PNMSubtype.Bitmap e2)) →
          (∀ e2, fmt ≠ ImageOutputFormat.PNM (PNMSubtype.Graymap e2)) →
          (∀ e2, fmt ≠ ImageOutputFormat.PNM (PNMSubtype.Pixmap e2)) →
          pre_process_color_type img fmt AutomaticColorTypeAdjustment.Enabled = none
            ∧ export_buffer img fmt AutomaticColorTypeAdjustment.Enabled = img)
      ∧ (pre_process_color_type img fmt AutomaticColorTypeAdjustment.Disabled = none
          ∧ export_buffer img fmt AutomaticColorTypeAdjustment.Disabled = img)
      ∧ ∃ b, img.grayscale = DynamicImage.ImageLuma8 b := by
  refine ⟨rfl, rfl, rfl, ?_, ⟨rfl, rfl⟩, ⟨_, rfl⟩⟩
  intro h1 h2 h3
  cases fmt with
  | BMP => exact ⟨rfl, rfl⟩
  | GIF => exact ⟨rfl, rfl⟩
  | ICO => exact ⟨rfl, rfl⟩
  | JPEG q => exact ⟨rfl, rfl⟩
  | PNG => exact ⟨rfl, rfl⟩
  | PNM s =>
    cases s with
    | Bitmap e2 => exact absurd rfl (h1 e2)
    | Graymap e2 => exact absurd rfl (h2 e2)
    | Pixmap e2 => exact absurd rfl (h3 e2)
    | ArbitraryMap => exact ⟨rfl, rfl⟩

end Sic
